import Mathlib

/-!
Shallow embedding of the blender4cubes demo (src/index.js): the marker-drag
coordinate mapper, the event-driven app state, the WebGL shader/program
builders, the geometry buffers, the placeholder texture setup and the draw
call issued by the render function.
-/

namespace Blender4Cubes

/-- JavaScript number results of the divisions in the drag handler: exact
rationals for the finite case, with division by zero producing Infinity,
-Infinity or NaN as in IEEE-754 / JavaScript. -/
inductive JsNum where
  | num (q : ℚ)
  | posInf
  | negInf
  | nan
deriving DecidableEq, Repr

/-- JavaScript division on the (exactly representable) operands appearing in
the drag handler: finite quotient when the divisor is nonzero, otherwise the
IEEE special value determined by the sign of the dividend. -/
def jsDiv (a b : ℚ) : JsNum :=
  if b = 0 then
    if 0 < a then JsNum.posInf
    else if a < 0 then JsNum.negInf
    else JsNum.nan
  else JsNum.num (a / b)

/-- The image element state read by the drag handler: its page offset
(offsetLeft, offsetTop) and its dimensions (width, height). -/
structure ImageEl where
  offsetLeft : ℚ
  offsetTop : ℚ
  width : ℚ
  height : ℚ
deriving DecidableEq, Repr

/-- One draggable slider (marker): the stored image-space fractions
(posInImageXPercent, posInImageYPercent, undefined before the first drag)
and the CSS position of the dot (style.left, style.top in px). -/
structure Slider where
  posInImageXPercent : Option JsNum
  posInImageYPercent : Option JsNum
  styleLeft : Option ℚ
  styleTop : Option ℚ
deriving DecidableEq, Repr

/-- A freshly created slider: style.left is "30px", style.top unset, and no
fractions stored yet (the properties are undefined until the first drag). -/
def initSlider : Slider :=
  { posInImageXPercent := none
    posInImageYPercent := none
    styleLeft := some 30
    styleTop := none }

/-- The body of the onmousemove handler (src/index.js lines 79-95) applied to
the slider currently being dragged: stores the unclamped position fractions,
then moves the dot to the pointer position clamped to the image box. -/
def onMouseMove (image : ImageEl) (clientX clientY : ℚ) (_s : Slider) : Slider :=
  let posInImageX := clientX - image.offsetLeft
  let posInImageY := clientY - image.offsetTop
  let clampedClientCenterX :=
    max image.offsetLeft (min (image.offsetLeft + image.width) clientX)
  let clampedClientCenterY :=
    max image.offsetTop (min (image.offsetTop + image.height) clientY)
  { posInImageXPercent := some (jsDiv posInImageX image.width)
    posInImageYPercent := some (jsDiv posInImageY image.height)
    styleLeft := some (clampedClientCenterX - 5)
    styleTop := some (clampedClientCenterY - 5) }

/-- The static texCoord buffer contents (src/index.js lines 218-227),
uploaded once with STATIC_DRAW: two floats per vertex, 8 vertices. -/
def texCoordBuffer : List ℚ :=
  [0, 1, 1/2, 1, 0, 1/2, 1/2, 1/2, 1, 1, 0, 0, 1/2, 0, 1, 1/2]

/-- The static position buffer contents (src/index.js lines 205-214): three
floats per vertex, 8 vertices of the cube net. -/
def posBuffer : List ℚ :=
  [-1, -1, 1, 1, -1, 1, -1, 1, 1, 1, 1, 1, 1, -1, -1, -1, 1, -1, 1, 1, -1, 1, 1, -1]

/-- The static index buffer contents (src/index.js lines 231-235): six
indices per face for the three visible faces. -/
def indexBuffer : List ℕ :=
  [0, 2, 3, 0, 3, 1, 2, 5, 6, 2, 6, 3, 1, 3, 7, 1, 7, 4]

/-- The mutable page state the drag events act on: the seven sliders, which
slider (if any) is being dragged, and the GPU-side texCoord buffer contents. -/
structure AppState where
  sliders : List Slider
  dragging : Option ℕ
  texCoordBuffer : List ℚ
deriving DecidableEq, Repr

/-- The state right after main() set everything up: seven fresh sliders,
nothing dragging, and the texCoord buffer holding its static initial data. -/
def initState : AppState :=
  { sliders := List.replicate 7 initSlider
    dragging := none
    texCoordBuffer := texCoordBuffer }

/-- The pointer events the page handles. A move event carries the image
geometry current at the time the handler reads it. -/
inductive Event where
  | mouseDown (i : Fin 7)
  | mouseMove (image : ImageEl) (clientX clientY : ℚ)
  | mouseUp
deriving DecidableEq, Repr

/-- The document.body.onmousemove handler (src/index.js lines 77-99): when a
slider is being dragged, overwrite its stored fractions and dot position;
otherwise do nothing. The texCoord buffer is not touched. -/
def bodyOnMouseMove (image : ImageEl) (clientX clientY : ℚ) (st : AppState) : AppState :=
  match st.dragging with
  | none => st
  | some i =>
      { st with
        sliders := st.sliders.set i (onMouseMove image clientX clientY
          (st.sliders.getD i initSlider)) }

/-- One step of the event-driven state machine: slider.onmousedown starts a
drag, body.onmousemove applies the drag handler, body.onmouseup ends it. -/
def step : Event → AppState → AppState
  | Event.mouseDown i, st => { st with dragging := some i.val }
  | Event.mouseMove image x y, st => bodyOnMouseMove image x y st
  | Event.mouseUp, st => { st with dragging := none }

/-- Run a sequence of events from the initial state. -/
def run (es : List Event) : AppState :=
  es.foldl (fun st e => step e st) initState

/-- The texCoord pair currently stored for vertex slot j (two floats per
vertex in the buffer). -/
def texCoordAt (st : AppState) (j : Fin 8) : ℚ × ℚ :=
  (st.texCoordBuffer.getD (2 * j.val) 0, st.texCoordBuffer.getD (2 * j.val + 1) 0)

/-- The slider in marker slot i. -/
def markerAt (st : AppState) (i : Fin 7) : Slider :=
  st.sliders.getD i.val initSlider

/-- Modelled from the spec: the fixed CubeNetTopology binding each of the 8
vertex texCoord slots to one of the 7 marker slots; no such table exists in
the code. Per the cube-net diagram, vertices 0-6 are bound to the marker of
the same index and vertex 7 shares marker 6 (the duplicated seam corner). -/
def specTopology (j : Fin 8) : Fin 7 :=
  ⟨min j.val 6, Nat.lt_succ_of_le (Nat.min_le_right j.val 6)⟩

/-- A concrete event run: press slider 0, then drag to page point (100, 300)
with a 400 by 400 image whose top-left corner is the page origin. -/
def demoDrag : List Event :=
  [Event.mouseDown 0, Event.mouseMove ⟨0, 0, 400, 400⟩ 100 300]

/-- The two WebGL shader stages used by the demo. -/
inductive ShaderType where
  | vertex
  | fragment
deriving DecidableEq, Repr

/-- The platform side of the GL driver as seen by loadShader and
createProgram: whether a given source compiles for a given stage and the
corresponding info log, and whether a given shader pair links and the
corresponding program info log. -/
structure GLOracle where
  compileStatus : ShaderType → String → Bool
  shaderInfoLog : ShaderType → String → String
  linkStatus : ℕ → ℕ → Bool
  programInfoLog : ℕ → ℕ → String

/-- The observable GL object state threaded through loadShader and
createProgram: a fresh-id counter, the ids of the live (created and not
deleted) shader objects, the live program objects with the shader ids
attached to them, and the console error channel (message, info log). -/
structure GLState where
  nextId : ℕ
  liveShaders : List ℕ
  livePrograms : List (ℕ × List ℕ)
  consoleLog : List (String × String)
deriving DecidableEq, Repr

/-- Well-formedness of a GL state: every live object id was produced by the
fresh-id counter, so the next id is not already live. -/
def GLState.WF (gl : GLState) : Prop :=
  (∀ s ∈ gl.liveShaders, s < gl.nextId) ∧ (∀ p ∈ gl.livePrograms, p.1 < gl.nextId)

/-- loadShader (src/index.js lines 1-14): createShader, shaderSource,
compileShader; on compile failure log the shader info log to the console
error channel, delete the shader and return null, otherwise return the
shader handle. -/
def loadShader (o : GLOracle) (ty : ShaderType) (source : String) (gl : GLState) :
    Option ℕ × GLState :=
  let shader := gl.nextId
  let gl1 : GLState :=
    { gl with nextId := gl.nextId + 1, liveShaders := gl.liveShaders ++ [shader] }
  if o.compileStatus ty source then
    (some shader, gl1)
  else
    (none,
      { gl1 with
        consoleLog := gl1.consoleLog ++ [("Error compiling shader", o.shaderInfoLog ty source)]
        liveShaders := gl1.liveShaders.erase shader })

/-- createProgram (src/index.js lines 16-31): createProgram, attach the
vertex and fragment shaders, linkProgram; on link failure log the program
info log to the console error channel, delete the program and return null,
otherwise return the program handle. -/
def createProgram (o : GLOracle) (vertexShader fragmentShader : ℕ) (gl : GLState) :
    Option ℕ × GLState :=
  let program := gl.nextId
  let gl1 : GLState :=
    { gl with
      nextId := gl.nextId + 1
      livePrograms := gl.livePrograms ++ [(program, [vertexShader, fragmentShader])] }
  if o.linkStatus vertexShader fragmentShader then
    (some program, gl1)
  else
    (none,
      { gl1 with
        consoleLog := gl1.consoleLog ++
          [("Error linking program", o.programInfoLog vertexShader fragmentShader)]
        livePrograms := gl1.livePrograms.filter (fun pr => pr.1 != program) })

/-- A GL oracle on which both compilation and linking fail, with fixed
diagnostic texts. -/
def oFail : GLOracle :=
  { compileStatus := fun _ _ => false
    shaderInfoLog := fun _ _ => "bad shader"
    linkStatus := fun _ _ => false
    programInfoLog := fun _ _ => "bad link" }

/-- An empty GL state with no live objects. -/
def glEmpty : GLState :=
  { nextId := 0, liveShaders := [], livePrograms := [], consoleLog := [] }

/-- Texture coordinate wrap modes relevant to the setup code. -/
inductive WrapMode where
  | clampToEdge
  | repeatWrap
deriving DecidableEq, Repr

/-- Texture sampling filters relevant to the setup code, including the WebGL
default minification filter. -/
inductive FilterMode where
  | linear
  | nearest
  | nearestMipmapLinear
deriving DecidableEq, Repr

/-- A GPU 2D texture object: its sampler parameters and the image most
recently uploaded into it (dimensions plus RGBA byte pixels). -/
structure Texture2D where
  wrapS : WrapMode
  wrapT : WrapMode
  minFilter : FilterMode
  magFilter : FilterMode
  width : ℕ
  height : ℕ
  pixels : List (ℕ × ℕ × ℕ × ℕ)
deriving DecidableEq, Repr

/-- gl.createTexture(): a fresh texture object with the WebGL default
parameters and no image uploaded yet. -/
def createTexture : Texture2D :=
  { wrapS := WrapMode.repeatWrap
    wrapT := WrapMode.repeatWrap
    minFilter := FilterMode.nearestMipmapLinear
    magFilter := FilterMode.linear
    width := 0
    height := 0
    pixels := [] }

/-- The texture parameters set by gl.texParameteri on the bound texture. -/
inductive TexParam where
  | wrapS (m : WrapMode)
  | wrapT (m : WrapMode)
  | minFilter (f : FilterMode)
  | magFilter (f : FilterMode)
deriving DecidableEq, Repr

/-- gl.texParameteri on the bound texture object. -/
def texParameteri (t : Texture2D) (p : TexParam) : Texture2D :=
  match p with
  | TexParam.wrapS m => { t with wrapS := m }
  | TexParam.wrapT m => { t with wrapT := m }
  | TexParam.minFilter f => { t with minFilter := f }
  | TexParam.magFilter f => { t with magFilter := f }

/-- gl.texImage2D on the bound texture object: replaces the uploaded image. -/
def texImage2D (t : Texture2D) (w h : ℕ) (px : List (ℕ × ℕ × ℕ × ℕ)) : Texture2D :=
  { t with width := w, height := h, pixels := px }

/-- The single placeholder pixel uploaded at init (src/index.js line 255):
opaque blue, RGBA (0, 0, 255, 255). -/
def pixel : List (ℕ × ℕ × ℕ × ℕ) := [(0, 0, 255, 255)]

/-- The texture set up by main() before any image load (src/index.js lines
238-266): create, set both wrap modes to CLAMP_TO_EDGE and both filters to
LINEAR, then upload the 1 by 1 placeholder pixel. -/
def texture : Texture2D :=
  texImage2D
    (texParameteri
      (texParameteri
        (texParameteri
          (texParameteri createTexture (TexParam.wrapS WrapMode.clampToEdge))
          (TexParam.wrapT WrapMode.clampToEdge))
        (TexParam.minFilter FilterMode.linear))
      (TexParam.magFilter FilterMode.linear))
    1 1 pixel

/-- The GPU texture objects allocated by main() before any image load: only
the one created at src/index.js line 238. -/
def texturesAfterInit : List Texture2D := [texture]

/-- Completeness of a texture for a non-mipmapped linear-filtered draw:
positive dimensions and a full pixel upload, so sampling it in a draw call
succeeds. -/
def Texture2D.textureComplete (t : Texture2D) : Bool :=
  decide (0 < t.width) && decide (0 < t.height) && (t.pixels.length == t.width * t.height)

/-- The primitive modes relevant to the draw call. -/
inductive DrawMode where
  | triangles
  | lines
deriving DecidableEq, Repr

/-- The element index types relevant to the draw call. -/
inductive IndexType where
  | unsignedShort
  | unsignedByte
deriving DecidableEq, Repr

/-- The arguments of a gl.drawElements call. -/
structure DrawElementsCall where
  mode : DrawMode
  count : ℕ
  indexType : IndexType
  offset : ℕ
deriving DecidableEq, Repr

/-- The draw call issued at the end of render() (src/index.js line 339):
gl.drawElements(gl.TRIANGLES, 18, gl.UNSIGNED_SHORT, 0), whatever the
current app state is. -/
def render (_st : AppState) : DrawElementsCall :=
  { mode := DrawMode.triangles
    count := 18
    indexType := IndexType.unsignedShort
    offset := 0 }

/-- C1 counterexample: with a 400 by 400 image at the page origin, dragging
to the outside point (500, 500) stores fraction 5/4 — outside [0, 1] — and
differs from the fraction stored by dragging to the nearest boundary point
(400, 400), refuting the claim that the pointer is clamped before the
fractions are computed. -/
theorem C1_unclamped_fraction_counterexample :
    (onMouseMove ⟨0, 0, 400, 400⟩ 500 500 initSlider).posInImageXPercent
        = some (JsNum.num (5/4)) ∧
    ¬ ((5 : ℚ)/4 ≤ 1) ∧
    (onMouseMove ⟨0, 0, 400, 400⟩ 500 500 initSlider).posInImageXPercent
        ≠ (onMouseMove ⟨0, 0, 400, 400⟩ 400 400 initSlider).posInImageXPercent := by
  refine ⟨by norm_num [onMouseMove, jsDiv], by norm_num, ?_⟩
  norm_num [onMouseMove, jsDiv]

/-- C1 (amended): for positive image dimensions, the drag handler stores the
fractions of the unclamped pointer position — they lie in [0, 1] exactly
when the pointer is inside the image bounding box — while clamping to the
box is applied only to the displayed dot position (style.left, style.top),
which always stays within the box (offset by the 5px dot radius). -/
theorem C1_clamp_applies_to_display_only (img : ImageEl) (x y : ℚ) (s : Slider)
    (hw : 0 < img.width) (hh : 0 < img.height) :
    ((onMouseMove img x y s).posInImageXPercent
        = some (JsNum.num ((x - img.offsetLeft) / img.width)) ∧
      (0 ≤ (x - img.offsetLeft) / img.width ∧ (x - img.offsetLeft) / img.width ≤ 1 ↔
        img.offsetLeft ≤ x ∧ x ≤ img.offsetLeft + img.width)) ∧
    ((onMouseMove img x y s).posInImageYPercent
        = some (JsNum.num ((y - img.offsetTop) / img.height)) ∧
      (0 ≤ (y - img.offsetTop) / img.height ∧ (y - img.offsetTop) / img.height ≤ 1 ↔
        img.offsetTop ≤ y ∧ y ≤ img.offsetTop + img.height)) ∧
    (∃ lx, (onMouseMove img x y s).styleLeft = some lx ∧
      img.offsetLeft - 5 ≤ lx ∧ lx ≤ img.offsetLeft + img.width - 5) ∧
    (∃ ly, (onMouseMove img x y s).styleTop = some ly ∧
      img.offsetTop - 5 ≤ ly ∧ ly ≤ img.offsetTop + img.height - 5) := by
  have hwne : img.width ≠ 0 := ne_of_gt hw
  have hhne : img.height ≠ 0 := ne_of_gt hh
  refine ⟨⟨by simp [onMouseMove, jsDiv, hwne], ?_⟩,
          ⟨by simp [onMouseMove, jsDiv, hhne], ?_⟩, ?_, ?_⟩
  · constructor
    · rintro ⟨h1, h2⟩
      rw [div_le_one hw] at h2
      rw [le_div_iff₀ hw, zero_mul] at h1
      constructor <;> linarith
    · rintro ⟨h1, h2⟩
      constructor
      · apply div_nonneg _ (le_of_lt hw); linarith
      · rw [div_le_one hw]; linarith
  · constructor
    · rintro ⟨h1, h2⟩
      rw [div_le_one hh] at h2
      rw [le_div_iff₀ hh, zero_mul] at h1
      constructor <;> linarith
    · rintro ⟨h1, h2⟩
      constructor
      · apply div_nonneg _ (le_of_lt hh); linarith
      · rw [div_le_one hh]; linarith
  · refine ⟨max img.offsetLeft (min (img.offsetLeft + img.width) x) - 5, rfl, ?_, ?_⟩
    · have := le_max_left img.offsetLeft (min (img.offsetLeft + img.width) x)
      linarith
    · have h1 := min_le_left (img.offsetLeft + img.width) x
      have h2 : max img.offsetLeft (min (img.offsetLeft + img.width) x)
          ≤ img.offsetLeft + img.width := max_le (by linarith) h1
      linarith
  · refine ⟨max img.offsetTop (min (img.offsetTop + img.height) y) - 5, rfl, ?_, ?_⟩
    · have := le_max_left img.offsetTop (min (img.offsetTop + img.height) y)
      linarith
    · have h1 := min_le_left (img.offsetTop + img.height) y
      have h2 : max img.offsetTop (min (img.offsetTop + img.height) y)
          ≤ img.offsetTop + img.height := max_le (by linarith) h1
      linarith

/-- Witness for C1 (amended) at the concrete drag of the spec scenario:
image 400 by 400 at the origin, pointer (100, 300). -/
theorem C1_clamp_applies_to_display_only_witness :
    (0 : ℚ) < 400 ∧
    (onMouseMove ⟨0, 0, 400, 400⟩ 100 300 initSlider).posInImageXPercent
      = some (JsNum.num ((100 - (0 : ℚ)) / 400)) := by
  have h := C1_clamp_applies_to_display_only ⟨0, 0, 400, 400⟩ 100 300 initSlider
    (by norm_num) (by norm_num)
  exact ⟨by norm_num, h.1.1⟩

/-- C2 counterexample: in the reachable state after pressing marker 0 and
dragging it to (100, 300) over a 400 by 400 image, marker 0 holds fraction
1/4 but vertex slot 0 — bound to marker 0 by the cube-net table — still
holds its initial texCoord 0: the buffer is stale relative to the markers,
refuting the claimed invariant. -/
theorem C2_stale_buffer_counterexample :
    (markerAt (run demoDrag) (specTopology 0)).posInImageXPercent
        = some (JsNum.num (1/4)) ∧
    (texCoordAt (run demoDrag) 0).1 = 0 ∧
    some (JsNum.num ((texCoordAt (run demoDrag) 0).1))
        ≠ (markerAt (run demoDrag) (specTopology 0)).posInImageXPercent := by
  refine ⟨?_, ?_, ?_⟩ <;>
    norm_num [markerAt, texCoordAt, run, demoDrag, step, bodyOnMouseMove, initState,
      onMouseMove, jsDiv, specTopology, initSlider, texCoordBuffer]

/-- C2 (amended): the texCoord buffer is never re-derived from the markers —
it is constant. After any event sequence (drags included) it still equals
the static initial cube-net data uploaded once at setup; marker updates
leave it untouched, so it is stale relative to the markers rather than a
pure function of them. -/
theorem C2_texCoordBuffer_constant (es : List Event) :
    (run es).texCoordBuffer = texCoordBuffer := by
  suffices h : ∀ st : AppState,
      (es.foldl (fun st e => step e st) st).texCoordBuffer = st.texCoordBuffer by
    exact h initState
  induction es with
  | nil => intro st; rfl
  | cons e es ih =>
      intro st
      rw [List.foldl_cons, ih]
      cases e with
      | mouseDown i => rfl
      | mouseUp => rfl
      | mouseMove img x y =>
          rcases hd : st.dragging with _ | i <;> simp [step, bodyOnMouseMove, hd]

/-- C3 counterexample: a drag delivered with image width 0 is not a no-op:
the handler divides anyway and overwrites the dragged marker's stored X
fraction (here from 0 to Infinity), refuting the claimed zero-size guard. -/
theorem C3_zero_width_counterexample :
    (onMouseMove ⟨0, 0, 0, 400⟩ 100 300
        { initSlider with posInImageXPercent := some (JsNum.num 0) }).posInImageXPercent
      = some JsNum.posInf ∧
    some JsNum.posInf ≠ some (JsNum.num 0) := by
  constructor
  · norm_num [onMouseMove, jsDiv]
  · simp

/-- C3 (amended): when the image width is zero the handler performs the
division regardless and stores a non-finite JavaScript value (Infinity,
-Infinity or NaN, never a finite number) as the marker's X fraction; the
texCoord buffer is unchanged — as it is for every drag event. -/
theorem C3_zero_width_still_divides (img : ImageEl) (x y : ℚ) (s : Slider)
    (hw : img.width = 0) :
    (¬ ∃ q : ℚ, (onMouseMove img x y s).posInImageXPercent = some (JsNum.num q)) ∧
    (∀ st : AppState, (step (Event.mouseMove img x y) st).texCoordBuffer
        = st.texCoordBuffer) := by
  constructor
  · rintro ⟨q, hq⟩
    simp [onMouseMove, jsDiv, hw] at hq
    split_ifs at hq
  · intro st
    rcases hd : st.dragging with _ | i <;> simp [step, bodyOnMouseMove, hd]

/-- Witness for C3 (amended) at a concrete zero-width drag. -/
theorem C3_zero_width_still_divides_witness :
    (⟨0, 0, 0, 400⟩ : ImageEl).width = 0 ∧
    ¬ ∃ q : ℚ, (onMouseMove ⟨0, 0, 0, 400⟩ 100 300 initSlider).posInImageXPercent
        = some (JsNum.num q) :=
  ⟨rfl, (C3_zero_width_still_divides ⟨0, 0, 0, 400⟩ 100 300 initSlider rfl).1⟩

/-- C4 counterexample: after the spec's concrete drag (marker 0, pointer
(100, 300), 400 by 400 image) vertex slot 0 — bound to marker 0 — does not
receive texCoord (1/4, 3/4): the buffer is never updated. -/
theorem C4_vertex_not_updated_counterexample :
    texCoordAt (run demoDrag) 0 ≠ ((1 : ℚ)/4, 3/4) := by
  norm_num [texCoordAt, run, demoDrag, step, bodyOnMouseMove, initState, texCoordBuffer]

/-- C4 (amended): the drag of marker 0 with pointer (100, 300) over a 400 by
400 image stores exactly the fraction pair (1/4, 3/4) (exact arithmetic),
but no vertex receives it: the texCoord buffer keeps its static initial
data, so vertex slot 0 (bound to marker 0) still holds (0, 1). -/
theorem C4_exact_fraction_buffer_unchanged :
    (markerAt (run demoDrag) 0).posInImageXPercent = some (JsNum.num (1/4)) ∧
    (markerAt (run demoDrag) 0).posInImageYPercent = some (JsNum.num (3/4)) ∧
    specTopology 0 = (0 : Fin 7) ∧
    (run demoDrag).texCoordBuffer = texCoordBuffer ∧
    texCoordAt (run demoDrag) 0 = ((0 : ℚ), 1) := by
  refine ⟨?_, ?_, ?_, ?_, ?_⟩ <;>
    norm_num [markerAt, texCoordAt, run, demoDrag, step, bodyOnMouseMove, initState,
      onMouseMove, jsDiv, specTopology, initSlider, texCoordBuffer]

/-- C5: the marker-drag update is idempotent — delivering the same mousemove
event twice (same image geometry, same pointer position, same dragged
slider) yields exactly the state produced by delivering it once, marker
fractions and texCoord buffer included. -/
theorem C5_drag_idempotent (img : ImageEl) (x y : ℚ) (st : AppState) :
    step (Event.mouseMove img x y) (step (Event.mouseMove img x y) st)
      = step (Event.mouseMove img x y) st := by
  rcases hd : st.dragging with _ | i
  · simp [step, bodyOnMouseMove, hd]
  · simp [step, bodyOnMouseMove, hd, onMouseMove, List.set_set]

/-- C6: createProgram attaches both shader stages to the new program and
links; on success it returns the program handle, live with both shaders
attached, without touching the console error channel; on link failure it
returns null, appends the linker's info log to the console error channel
and deletes the partial program (live programs are restored); in both
outcomes the set of live shader objects is unchanged — no shader leaked or
destroyed. -/
theorem C6_createProgram_outcomes (o : GLOracle) (vs fs : ℕ) (gl : GLState)
    (hwf : gl.WF) :
    (createProgram o vs fs gl).2.liveShaders = gl.liveShaders ∧
    (o.linkStatus vs fs = true →
      ∃ p, (createProgram o vs fs gl).1 = some p ∧
        (p, [vs, fs]) ∈ (createProgram o vs fs gl).2.livePrograms ∧
        (createProgram o vs fs gl).2.consoleLog = gl.consoleLog) ∧
    (o.linkStatus vs fs = false →
      (createProgram o vs fs gl).1 = none ∧
      (createProgram o vs fs gl).2.livePrograms = gl.livePrograms ∧
      (createProgram o vs fs gl).2.consoleLog
        = gl.consoleLog ++ [("Error linking program", o.programInfoLog vs fs)]) := by
  cases hl : o.linkStatus vs fs with
  | true =>
      refine ⟨by simp [createProgram, hl], ?_, by simp [hl]⟩
      intro _
      refine ⟨gl.nextId, by simp [createProgram, hl], ?_, by simp [createProgram, hl]⟩
      simp [createProgram, hl]
  | false =>
      refine ⟨by simp [createProgram, hl], by simp [hl], ?_⟩
      intro _
      refine ⟨by simp [createProgram, hl], ?_, by simp [createProgram, hl]⟩
      have hfilter : gl.livePrograms.filter (fun pr => pr.1 != gl.nextId)
          = gl.livePrograms := by
        apply List.filter_eq_self.mpr
        intro pr hpr
        simpa [bne_iff_ne] using Nat.ne_of_lt (hwf.2 pr hpr)
      simp [createProgram, hl, List.filter_append, hfilter]

/-- Witness for C6 on a concrete failing link from the empty GL state. -/
theorem C6_createProgram_outcomes_witness :
    (createProgram oFail 1 2 glEmpty).1 = none ∧
    (createProgram oFail 1 2 glEmpty).2.livePrograms = glEmpty.livePrograms ∧
    (createProgram oFail 1 2 glEmpty).2.liveShaders = glEmpty.liveShaders := by
  have hwf : glEmpty.WF := ⟨by simp [glEmpty], by simp [glEmpty]⟩
  have h := C6_createProgram_outcomes oFail 1 2 glEmpty hwf
  exact ⟨(h.2.2 rfl).1, (h.2.2 rfl).2.1, h.1⟩

/-- C7: loadShader compiles the source for the given stage; on success it
returns the shader handle, the only state change being that the new shader
is live; on compile failure it returns null, appends the compiler's info
log to the console error channel and deletes the partially-created shader
(live shaders are restored). -/
theorem C7_loadShader_outcomes (o : GLOracle) (ty : ShaderType) (src : String)
    (gl : GLState) (hwf : gl.WF) :
    (o.compileStatus ty src = true →
      ∃ s, (loadShader o ty src gl).1 = some s ∧
        (loadShader o ty src gl).2.liveShaders = gl.liveShaders ++ [s] ∧
        (loadShader o ty src gl).2.livePrograms = gl.livePrograms ∧
        (loadShader o ty src gl).2.consoleLog = gl.consoleLog) ∧
    (o.compileStatus ty src = false →
      (loadShader o ty src gl).1 = none ∧
      (loadShader o ty src gl).2.liveShaders = gl.liveShaders ∧
      (loadShader o ty src gl).2.livePrograms = gl.livePrograms ∧
      (loadShader o ty src gl).2.consoleLog
        = gl.consoleLog ++ [("Error compiling shader", o.shaderInfoLog ty src)]) := by
  cases hc : o.compileStatus ty src with
  | true =>
      refine ⟨?_, by simp [hc]⟩
      intro _
      exact ⟨gl.nextId, by simp [loadShader, hc], by simp [loadShader, hc],
        by simp [loadShader, hc], by simp [loadShader, hc]⟩
  | false =>
      refine ⟨by simp [hc], ?_⟩
      intro _
      have hne : gl.nextId ∉ gl.liveShaders := fun hmem =>
        absurd (hwf.1 _ hmem) (lt_irrefl _)
      have herase : (gl.liveShaders ++ [gl.nextId]).erase gl.nextId
          = gl.liveShaders := by
        rw [List.erase_append_right _ hne]
        simp
      exact ⟨by simp [loadShader, hc], by simp [loadShader, hc, herase],
        by simp [loadShader, hc], by simp [loadShader, hc]⟩

/-- Witness for C7 on a concrete failing compile from the empty GL state. -/
theorem C7_loadShader_outcomes_witness :
    (loadShader oFail ShaderType.vertex "void main" glEmpty).1 = none ∧
    (loadShader oFail ShaderType.vertex "void main" glEmpty).2.liveShaders
      = glEmpty.liveShaders := by
  have hwf : glEmpty.WF := ⟨by simp [glEmpty], by simp [glEmpty]⟩
  have h := C7_loadShader_outcomes oFail ShaderType.vertex "void main" glEmpty hwf
  exact ⟨(h.2 rfl).1, (h.2 rfl).2.1⟩

/-- C8: the geometry store holds exactly the three fixed-layout buffers —
24 position floats (8 vertices by 3), 16 texCoord floats (8 vertices by 2)
and 18 index shorts — and every render() issues an indexed triangle draw
over the full index count of 18, whatever the state. -/
theorem C8_geometry_layout_and_draw (st : AppState) :
    posBuffer.length = 8 * 3 ∧
    texCoordBuffer.length = 8 * 2 ∧
    indexBuffer.length = 18 ∧
    (render st).mode = DrawMode.triangles ∧
    (render st).indexType = IndexType.unsignedShort ∧
    (render st).count = indexBuffer.length :=
  ⟨rfl, rfl, rfl, rfl, rfl, rfl⟩

/-- C9: at initialization, before any user image load, exactly one GPU
texture is allocated and holds a single 1 by 1 opaque pixel, with both wrap
axes set to edge-clamp and both filters linear, and the texture is complete
so a draw call using it can succeed immediately. -/
theorem C9_placeholder_texture_init :
    texturesAfterInit = [texture] ∧
    texturesAfterInit.length = 1 ∧
    texture.wrapS = WrapMode.clampToEdge ∧
    texture.wrapT = WrapMode.clampToEdge ∧
    texture.minFilter = FilterMode.linear ∧
    texture.magFilter = FilterMode.linear ∧
    texture.width = 1 ∧
    texture.height = 1 ∧
    texture.pixels = [(0, 0, 255, 255)] ∧
    (∀ p ∈ texture.pixels, p.2.2.2 = 255) ∧
    texture.textureComplete = true := by
  decide

/-- C10: every entry of the 18-element index buffer is below 8, and the draw
covering the full index count only ever addresses components that exist in
the 8-vertex position and texCoord buffers — no out-of-bounds vertex
access. -/
theorem C10_index_buffer_in_bounds :
    (∀ i ∈ indexBuffer, i < 8) ∧
    (render initState).count = indexBuffer.length ∧
    (∀ i ∈ indexBuffer, 3 * i + 2 < posBuffer.length ∧
      2 * i + 1 < texCoordBuffer.length) := by
  refine ⟨by decide, rfl, by decide⟩

end Blender4Cubes
